import Mathlib

/-!
Verification of the concurrent proxy validator in src/create_configs_json.py.

The embedding models the validator pipeline: the connectivity prober
`_test_connectivity`, the per-trial validation `is_xray_config_valid`, and the
orchestrator `build_proxies_from_content`.  I/O effects (socket availability,
the engine subprocess, HTTP fetches) are modelled by an explicit environment
record whose fields record the outcome of each effectful primitive; raised
Python exceptions that escape a function are modelled with `Except.error`.
-/

namespace CreateConfigsJson

instance {ε α : Type} [DecidableEq ε] [DecidableEq α] : DecidableEq (Except ε α) := fun a b =>
  match a, b with
  | Except.ok x, Except.ok y => decidable_of_iff (x = y) (by simp)
  | Except.error x, Except.error y => decidable_of_iff (x = y) (by simp)
  | Except.ok _, Except.error _ => isFalse (by simp)
  | Except.error _, Except.ok _ => isFalse (by simp)

/-- Outcome of fetching one test URL through the local proxy, as distinguished
by the handlers in `_test_connectivity` (src/create_configs_json.py lines
112-140): a returned response with its HTTP status code, a raised
`urllib.error.HTTPError` with its code, a `urllib.error.URLError`, a
`socket.timeout`, or any other exception. -/
inductive FetchOutcome where
  | ok (status : Nat)
  | httpError (code : Nat)
  | urlError
  | timeout
  | otherError
deriving DecidableEq, Repr

/-- Whether one URL's outcome increments `successful_tests` (lines 120-131):
a returned response whose status is in [200,300), or an `HTTPError` whose code
is in [200,300).  URL errors, timeouts and other exceptions never count, and
neither does a returned response with a status outside [200,300). -/
def urlSuccess : FetchOutcome → Bool
  | FetchOutcome.ok status => decide (200 ≤ status ∧ status < 300)
  | FetchOutcome.httpError code => decide (200 ≤ code ∧ code < 300)
  | FetchOutcome.urlError => false
  | FetchOutcome.timeout => false
  | FetchOutcome.otherError => false

/-- The default canary URL list substituted when `test_urls is None`
(lines 168-173). -/
def DEFAULT_TEST_URLS : List String :=
  ["http://www.gstatic.com/generate_204",
   "http://connectivitycheck.gstatic.com/generate_204",
   "http://clients3.google.com/generate_204"]

/-- Embedding of `_test_connectivity(port, test_urls, timeout)` (lines
94-153).  The network behaviour for the fixed port and timeout is the function
`network` giving each URL's fetch outcome.  The loop counts the successful
URLs; afterwards `success_rate = successful_tests / total_tests` raises
`ZeroDivisionError` when the URL list is empty (modelled as `Except.error`),
and otherwise the verdict is `successful_tests > 0`. -/
def _test_connectivity (test_urls : List String) (network : String → FetchOutcome) :
    Except String Bool :=
  let successful_tests := (test_urls.filter (fun u => urlSuccess (network u))).length
  let total_tests := test_urls.length
  if total_tests = 0 then Except.error "ZeroDivisionError"
  else Except.ok (decide (successful_tests > 0))

/-- A Python dict passed as `config_dict`, projected to what
`is_xray_config_valid` inspects: the `outbounds` key (absent, or present with
a list of opaque outbound objects, here strings) and the number of other keys
(so that dict truthiness `not config_dict` is expressible). -/
structure ConfigDict where
  outbounds : Option (List String)
  otherKeys : Nat
deriving DecidableEq, Repr

/-- Python truthiness test `not config_dict` (line 178): the dict is falsy iff
it has no keys at all. -/
def configFalsy (c : ConfigDict) : Bool := c.outbounds.isNone && c.otherKeys == 0

/-- Python truthiness test `not config_dict.get("outbounds")` (line 182):
falsy iff the key is absent or its list is empty. -/
def outboundsFalsy (c : ConfigDict) : Bool := (c.outbounds.getD []).isEmpty

/-- One entry of the template's `inbounds` array, projected to the fields the
validator reads and writes (lines 196-202). -/
structure Inbound where
  protocol : String
  port : Nat
deriving DecidableEq, Repr

/-- The engine template document (TEMPLATE, loaded from template.json). -/
structure Template where
  inbounds : List Inbound
  outbounds : List String
deriving DecidableEq, Repr

/-- Whether the loop of lines 196-202 finds an inbound of protocol "http". -/
def hasHttpInbound (t : Template) : Bool :=
  t.inbounds.any (fun ib => ib.protocol == "http")

/-- Outcome of `subprocess.Popen` (line 235): process started, raised
`FileNotFoundError` (caught at line 279, fail-open), or raised some other
exception (caught by the catch-all at line 283). -/
inductive SpawnOutcome where
  | started
  | fileNotFound
  | otherError
deriving DecidableEq, Repr

/-- Environment of one trial: the outcome of every effectful primitive that
`is_xray_config_valid` consults.

* `avail` — result of `_is_port_available` per port (lines 85-92, 187);
* `altPort` — the port `find_free_port()` would return at line 189;
* `findFreePortRaises` — whether that `find_free_port()` call raises `OSError`
  (it sits outside the try block, so a raise escapes the function);
* `serializeOk` — whether `json.dumps(template)` succeeds (lines 212-218);
* `binaryIsFile` — `os.path.isfile(xray_path)` (line 229);
* `spawn` — outcome of `subprocess.Popen` (line 235);
* `stdinWriteFails` — whether writing the config to stdin raises one of
  `IOError`, `BrokenPipeError`, `ValueError` (lines 245-252);
* `pollAfterWait` — `process.poll()` after the startup wait (line 259):
  `some code` if the process already exited with that code;
* `stderrReadRaises` — whether the best-effort stderr read of the dead
  process raises (lines 262-270; caught there, so it cannot change the
  verdict — the field records the modelled event);
* `network` — fetch outcome per effective proxy port and URL. -/
structure XrayEnv where
  avail : Nat → Bool
  altPort : Nat
  findFreePortRaises : Bool
  serializeOk : Bool
  binaryIsFile : Bool
  spawn : SpawnOutcome
  stdinWriteFails : Bool
  pollAfterWait : Option Int
  stderrReadRaises : Bool
  network : Nat → String → FetchOutcome

/-- The port actually used by the trial (lines 186-190): the given port when
`_is_port_available(port)` holds, else the fresh port from `find_free_port()`.
The fresh port's own availability is never consulted. -/
def effective_port (env : XrayEnv) (port : Nat) : Nat :=
  if env.avail port then port else env.altPort

/-- Embedding of `is_xray_config_valid(config_dict, port, ...)` (lines
155-319), following its control flow in order:
input validation (lines 177-184), the port availability re-check and
re-allocation (lines 186-190, where a raising `find_free_port` escapes the
function), the http-inbound search (lines 196-206), JSON serialization
(lines 212-218), the missing-binary fail-open (lines 228-231), process spawn
(lines 235-241 with the `FileNotFoundError` fail-open of lines 279-281 and the
catch-all of lines 283-285), the stdin write (lines 245-252), the liveness
poll after the startup wait (lines 258-271), and finally the connectivity
probe (line 276), whose `ZeroDivisionError` on an empty URL list is swallowed
by the catch-all at line 283 and becomes a failed verdict. -/
def is_xray_config_valid (config : ConfigDict) (port : Nat) (template : Template)
    (test_urls : Option (List String)) (env : XrayEnv) : Except String Bool :=
  if configFalsy config then Except.ok false
  else if outboundsFalsy config then Except.ok false
  else if !env.avail port && env.findFreePortRaises then Except.error "OSError"
  else
    let p := effective_port env port
    if !hasHttpInbound template then Except.ok false
    else if !env.serializeOk then Except.ok false
    else if !env.binaryIsFile then Except.ok true
    else
      match env.spawn with
      | SpawnOutcome.fileNotFound => Except.ok true
      | SpawnOutcome.otherError => Except.ok false
      | SpawnOutcome.started =>
        if env.stdinWriteFails then Except.ok false
        else
          match env.pollAfterWait with
          | some _ => Except.ok false
          | none =>
            match _test_connectivity (test_urls.getD DEFAULT_TEST_URLS) (env.network p) with
            | Except.ok b => Except.ok b
            | Except.error _ => Except.ok false

/-- Whether the trial reaches the `subprocess.Popen` call at line 235: every
earlier gate (input validation, a non-raising port step, the http inbound,
serialization, the binary existence check) must pass. -/
def xray_spawn_attempted (config : ConfigDict) (port : Nat) (template : Template)
    (env : XrayEnv) : Bool :=
  !configFalsy config && !outboundsFalsy config
    && !(!env.avail port && env.findFreePortRaises)
    && hasHttpInbound template && env.serializeOk && env.binaryIsFile

/-- Whether the trial reaches the `find_free_port()` call at line 189: the
input checks pass and the given port is unavailable. -/
def xray_port_realloc_attempted (config : ConfigDict) (port : Nat) (env : XrayEnv) : Bool :=
  !configFalsy config && !outboundsFalsy config && !env.avail port

/-- Characters remaining after stripping leading and trailing whitespace. -/
def stripChars (l : List Char) : List Char :=
  ((l.dropWhile Char.isWhitespace).reverse.dropWhile Char.isWhitespace).reverse

/-- Python's `line.strip()` (line 330): the string with leading and trailing
whitespace removed. -/
def pyStrip (s : String) : String := String.mk (stripChars s.data)

/-- One parsed task of `build_proxies_from_content` (line 337): the generated
config, the (stripped) source line, and the stable 1-based ingestion index
`i + 1`. -/
structure Task where
  config : ConfigDict
  line : String
  index : Nat
deriving DecidableEq, Repr

/-- Embedding of the parsing loop of `build_proxies_from_content` (lines
328-342): lines are enumerated, stripped, blank lines skipped, and each
remaining line is run through the translator (`fix_vless_url` plus
`generateConfig` plus `json.loads`, abstracted as the external function
`parse`, `none` meaning an exception was raised and the line dropped);
survivors become tasks carrying the original index `i + 1`. -/
def tasks_to_process (parse : String → Option ConfigDict) (lines : List String) :
    List Task :=
  lines.enum.filterMap (fun pr =>
    let line := pyStrip pr.2
    if line = "" then none
    else
      match parse line with
      | some config => some { config := config, line := line, index := pr.1 + 1 }
      | none => none)

/-- A surviving proxy entry: the candidate's first outbound object with its
`tag` key set to `"proxy{index}"` (lines 385-386).  `tagNum` carries the
numeric part `index` of the tag, which is what the sort key
`int(p['tag'].replace('proxy', ''))` at line 399 recovers from the tag
string. -/
structure Proxy where
  outbound : String
  tag : String
  tagNum : Nat
deriving DecidableEq, Repr

/-- The orchestration environment: the shared engine template, the port
`find_free_port()` returns for each task's submission (line 366), and each
task's trial environment. -/
structure Orch where
  template : Template
  portOf : Nat → Nat
  envOf : Nat → XrayEnv

/-- The verdict of one submitted trial, `future.result()` at line 379:
`is_xray_config_valid(task['config'], port)` with all remaining parameters
defaulted (in particular `test_urls = None`). -/
def trialResult (O : Orch) (t : Task) : Except String Bool :=
  is_xray_config_valid t.config (O.portOf t.index) O.template none (O.envOf t.index)

/-- The proxy entry appended for a passing task (lines 385-387). -/
def mkProxy (t : Task) : Proxy :=
  { outbound := (t.config.outbounds.getD []).headD ""
    tag := "proxy" ++ toString t.index
    tagNum := t.index }

/-- The result-collection loop (lines 373-392) over the completion order of
the futures: a task whose `future.result()` is `True` appends its tagged
proxy; a `False` verdict is skipped, and a raised exception is caught at the
worker boundary (lines 391-392) and likewise only skips that task. -/
def collect_results (O : Orch) (order : List Task) : List Proxy :=
  order.filterMap (fun t =>
    if trialResult O t = Except.ok true then some (mkProxy t) else none)

/-- The key order of the final sort at line 399, comparing the numeric parts
of the tags. -/
def proxyLe (p q : Proxy) : Prop := p.tagNum ≤ q.tagNum

/-- Strict version of `proxyLe`; within one run all collected tags are
distinct, so the sorted output is strictly increasing. -/
def proxyLt (p q : Proxy) : Prop := p.tagNum < q.tagNum

instance : DecidableRel proxyLe := fun p q => Nat.decLe p.tagNum q.tagNum

instance : IsTotal Proxy proxyLe := ⟨fun p q => Nat.le_total p.tagNum q.tagNum⟩

instance : IsTrans Proxy proxyLe := ⟨fun _ _ _ h h' => Nat.le_trans h h'⟩

instance : IsAntisymm Proxy proxyLt :=
  ⟨fun _ _ h h' => absurd (Nat.lt_trans h h') (Nat.lt_irrefl _)⟩

/-- The final sort at line 399, `proxies.sort(key=lambda p:
int(p['tag'].replace('proxy', '')))`: a stable comparison sort of the
collected proxies by the numeric part of their tag (modelled by a stable
insertion sort over `proxyLe`). -/
def sort_proxies (ps : List Proxy) : List Proxy :=
  List.insertionSort proxyLe ps

/-- Embedding of `build_proxies_from_content` (lines 321-402) for a given
completion order of the trials: collect the passing proxies in completion
order, then sort by the tag's numeric part.  `order` ranges over the
permutations of `tasks_to_process parse lines` that the batched
`as_completed` loops can produce. -/
def build_proxies_from_content (O : Orch) (order : List Task) : List Proxy :=
  sort_proxies (collect_results O order)

/-! Concrete instances used to exercise the definitions. -/

/-- A template with one http inbound, as in template.json. -/
def sampleTemplate : Template :=
  { inbounds := [{ protocol := "http", port := 10809 }], outbounds := ["freedom"] }

/-- A template whose only inbound is not of protocol http. -/
def noHttpTemplate : Template :=
  { inbounds := [{ protocol := "socks", port := 10808 }], outbounds := ["freedom"] }

/-- An environment in which every effectful step succeeds and every fetch
returns HTTP 204. -/
def baseEnv : XrayEnv :=
  { avail := fun _ => true
    altPort := 20000
    findFreePortRaises := false
    serializeOk := true
    binaryIsFile := true
    spawn := SpawnOutcome.started
    stdinWriteFails := false
    pollAfterWait := none
    stderrReadRaises := false
    network := fun _ _ => FetchOutcome.ok 204 }

/-- The empty Python dict `{}`. -/
def emptyDictConfig : ConfigDict := { outbounds := none, otherKeys := 0 }

/-- A well-formed candidate config with one outbound. -/
def sampleConfig : ConfigDict := { outbounds := some ["vless-outbound"], otherKeys := 1 }

/-- Network for the spec scenario: the first canary URL yields HTTP 500, the
second yields HTTP 204. -/
def scenarioNetwork : String → FetchOutcome := fun u =>
  if u = "u1" then FetchOutcome.httpError 500 else FetchOutcome.ok 204

/-- A translator that parses every line into a config whose single outbound
is the line itself. -/
def parseSample : String → Option ConfigDict := fun s =>
  some { outbounds := some [s], otherKeys := 1 }

def sampleLines : List String := ["alpha", "beta", "gamma"]

/-- Orchestration in which the trial of task 2 fails (serialization failure)
and all other trials pass fail-open (missing binary). -/
def sampleOrch : Orch :=
  { template := sampleTemplate
    portOf := fun _ => 10000
    envOf := fun i =>
      if i = 2 then { baseEnv with serializeOk := false }
      else { baseEnv with binaryIsFile := false } }

/-- Orchestration in which the trial of task 2 raises (port unavailable and
`find_free_port` raises `OSError` outside the try block) and all other trials
pass fail-open. -/
def errOrch : Orch :=
  { template := sampleTemplate
    portOf := fun _ => 10000
    envOf := fun i =>
      if i = 2 then { baseEnv with avail := fun _ => false, findFreePortRaises := true }
      else { baseEnv with binaryIsFile := false } }

/-- The parsed task of the second sample line. -/
def betaTask : Task :=
  { config := { outbounds := some ["beta"], otherKeys := 1 }, line := "beta", index := 2 }

/-! Helper lemmas. -/

lemma outboundsFalsy_of_configFalsy {c : ConfigDict} (h : configFalsy c = true) :
    outboundsFalsy c = true := by
  rcases c with ⟨o, k⟩
  cases o with
  | none => simp [outboundsFalsy]
  | some l => simp [configFalsy, Option.isNone] at h

lemma configFalsy_eq_false {c : ConfigDict} (h : outboundsFalsy c = false) :
    configFalsy c = false := by
  cases hc : configFalsy c with
  | false => rfl
  | true => exact absurd (outboundsFalsy_of_configFalsy hc) (by simp [h])

lemma port_cond_false {env : XrayEnv} {port : Nat}
    (h : env.avail port = true ∨ env.findFreePortRaises = false) :
    (!env.avail port && env.findFreePortRaises) = false := by
  rcases h with h | h <;> simp [h]

lemma decide_filter_pos (l : List String) (p : String → Bool) :
    decide (0 < (l.filter p).length) = l.any p := by
  induction l with
  | nil => rfl
  | cons a t ih =>
    cases hp : p a <;> simp [List.filter_cons, hp, ih]

lemma trial_not_pass_of_no_http {template : Template} (h : hasHttpInbound template = false)
    (config : ConfigDict) (port : Nat) (test_urls : Option (List String)) (env : XrayEnv) :
    is_xray_config_valid config port template test_urls env ≠ Except.ok true := by
  cases hc : configFalsy config with
  | true => simp [is_xray_config_valid, hc]
  | false =>
    cases ho : outboundsFalsy config with
    | true => simp [is_xray_config_valid, hc, ho]
    | false =>
      cases hp : (!env.avail port && env.findFreePortRaises) with
      | true => simp [is_xray_config_valid, hc, ho, hp]
      | false => simp [is_xray_config_valid, hc, ho, hp, h]

lemma enumFrom_fst_pairwise (n : Nat) (l : List String) :
    List.Pairwise (fun (a b : Nat × String) => a.1 < b.1) (List.enumFrom n l) := by
  induction l generalizing n with
  | nil => simp
  | cons x xs ih =>
    rw [List.enumFrom]
    refine List.Pairwise.cons ?_ (ih (n + 1))
    rintro ⟨i, s⟩ hb
    have hmem := List.mem_enumFrom hb
    omega

lemma task_mem_aux {parse : String → Option ConfigDict} {pr : Nat × String} {t : Task}
    (h : t ∈ (let line := pyStrip pr.2;
        if line = "" then none
        else
          match parse line with
          | some config => some { config := config, line := line, index := pr.1 + 1 }
          | none => (none : Option Task))) :
    t.index = pr.1 + 1 := by
  dsimp only at h
  split at h
  · simp at h
  · split at h
    · rw [Option.mem_def, Option.some_inj] at h
      rw [← h]
    · simp at h

lemma tasks_index_sorted (parse : String → Option ConfigDict) (lines : List String) :
    List.Pairwise (fun a b => a.index < b.index) (tasks_to_process parse lines) := by
  rw [tasks_to_process, List.pairwise_filterMap]
  have henum : List.Pairwise (fun (a b : Nat × String) => a.1 < b.1) lines.enum :=
    enumFrom_fst_pairwise 0 lines
  refine henum.imp ?_
  intro a b hab
  intro t ht t' ht'
  have h1 : t.index = a.1 + 1 := task_mem_aux ht
  have h2 : t'.index = b.1 + 1 := task_mem_aux ht'
  omega

lemma tasks_index_nodup (parse : String → Option ConfigDict) (lines : List String) :
    ((tasks_to_process parse lines).map Task.index).Nodup :=
  List.pairwise_map.mpr
    ((tasks_index_sorted parse lines).imp (fun hab => Nat.ne_of_lt hab))

lemma collect_eq_filter_map (O : Orch) (l : List Task) :
    collect_results O l
      = (l.filter (fun t => decide (trialResult O t = Except.ok true))).map mkProxy := by
  induction l with
  | nil => rfl
  | cons t ts ih =>
    by_cases h : trialResult O t = Except.ok true
    · simp [collect_results, List.filterMap_cons, List.filter_cons, h] at ih ⊢
      exact ih
    · simp [collect_results, List.filterMap_cons, List.filter_cons, h] at ih ⊢
      exact ih

lemma target_sorted (O : Orch) (parse : String → Option ConfigDict) (lines : List String) :
    List.Pairwise proxyLt
      (((tasks_to_process parse lines).filter
          (fun t => decide (trialResult O t = Except.ok true))).map mkProxy) := by
  rw [List.pairwise_map]
  refine ((tasks_index_sorted parse lines).filter _).imp ?_
  intro a b hab
  exact hab

lemma build_eq_filter (O : Orch) (parse : String → Option ConfigDict) (lines : List String)
    (order : List Task) (h : order.Perm (tasks_to_process parse lines)) :
    build_proxies_from_content O order
      = ((tasks_to_process parse lines).filter
            (fun t => decide (trialResult O t = Except.ok true))).map mkProxy := by
  have htarget_lt := target_sorted O parse lines
  have hperm0 : (collect_results O order).Perm
      (collect_results O (tasks_to_process parse lines)) :=
    List.Perm.filterMap _ h
  have hperm : (collect_results O order).Perm
      (((tasks_to_process parse lines).filter
          (fun t => decide (trialResult O t = Except.ok true))).map mkProxy) := by
    rw [← collect_eq_filter_map]
    exact hperm0
  have hperm2 : (build_proxies_from_content O order).Perm
      (((tasks_to_process parse lines).filter
          (fun t => decide (trialResult O t = Except.ok true))).map mkProxy) :=
    (List.perm_insertionSort proxyLe (collect_results O order)).trans hperm
  have hsorted_le : List.Pairwise proxyLe (build_proxies_from_content O order) :=
    List.sorted_insertionSort proxyLe (collect_results O order)
  have hnd_target : ((((tasks_to_process parse lines).filter
      (fun t => decide (trialResult O t = Except.ok true))).map mkProxy).map
        Proxy.tagNum).Nodup :=
    List.pairwise_map.mpr (htarget_lt.imp (fun hab => Nat.ne_of_lt hab))
  have hnd : ((build_proxies_from_content O order).map Proxy.tagNum).Nodup :=
    hnd_target.perm (hperm2.map Proxy.tagNum).symm
  have hne : List.Pairwise (fun a b : Proxy => a.tagNum ≠ b.tagNum)
      (build_proxies_from_content O order) := List.pairwise_map.mp hnd
  have hlt_result : List.Pairwise proxyLt (build_proxies_from_content O order) :=
    (hsorted_le.and hne).imp (fun hab => lt_of_le_of_ne hab.1 hab.2)
  exact List.eq_of_perm_of_sorted hperm2 hlt_result htarget_lt

/-! Claim theorems. -/

/-- C1: for every non-empty list of test URLs and every network behaviour,
`_test_connectivity` returns a verdict (it does not raise), the verdict is
passed exactly when at least one URL's fetch yields an HTTP status in
[200,300), and evaluation covers every URL regardless of earlier failures
(the verdict equals the disjunction over the whole list). -/
theorem connectivity_passes_iff_some_url_succeeds (test_urls : List String)
    (network : String → FetchOutcome) (h : test_urls ≠ []) :
    _test_connectivity test_urls network
        = Except.ok (test_urls.any (fun u => urlSuccess (network u)))
      ∧ (_test_connectivity test_urls network = Except.ok true
          ↔ ∃ u ∈ test_urls, urlSuccess (network u) = true) := by
  have hlen : test_urls.length ≠ 0 := by simpa using h
  have heq : _test_connectivity test_urls network
      = Except.ok (test_urls.any (fun u => urlSuccess (network u))) := by
    simp [_test_connectivity, hlen, decide_filter_pos]
  refine ⟨heq, ?_⟩
  rw [heq]
  simp [List.any_eq_true]

/-- Witness for C1: the spec scenario, first URL yields HTTP 500 and the
second yields HTTP 204, gives a passed verdict. -/
theorem connectivity_witness :
    _test_connectivity ["u1", "u2"] scenarioNetwork = Except.ok true := by
  rw [(connectivity_passes_iff_some_url_succeeds ["u1", "u2"] scenarioNetwork (by decide)).1]
  rfl

/-- C3 counterexample: with the engine binary missing, the empty candidate
configuration still yields a failed verdict, so the claim that every
candidate configuration passes when the binary is missing is false. -/
theorem missing_binary_not_always_pass :
    ({ baseEnv with binaryIsFile := false } : XrayEnv).binaryIsFile = false
      ∧ is_xray_config_valid emptyDictConfig 1000 sampleTemplate none
          { baseEnv with binaryIsFile := false } = Except.ok false
      ∧ is_xray_config_valid emptyDictConfig 1000 sampleTemplate none
          { baseEnv with binaryIsFile := false } ≠ Except.ok true := by
  refine ⟨rfl, rfl, by decide⟩

/-- C3 amended: for every candidate configuration that reaches the binary
existence check (non-empty outbounds, no raising port re-allocation, an http
inbound in the template, successful serialization), a missing engine binary
yields a passing verdict (fail-open). -/
theorem missing_binary_fail_open (config : ConfigDict) (port : Nat) (template : Template)
    (test_urls : Option (List String)) (env : XrayEnv)
    (houts : outboundsFalsy config = false)
    (hport : env.avail port = true ∨ env.findFreePortRaises = false)
    (hhttp : hasHttpInbound template = true)
    (hser : env.serializeOk = true)
    (hbin : env.binaryIsFile = false) :
    is_xray_config_valid config port template test_urls env = Except.ok true := by
  simp [is_xray_config_valid, configFalsy_eq_false houts, houts, port_cond_false hport,
    hhttp, hser, hbin]

/-- Witness for the amended C3 theorem at a concrete input. -/
theorem missing_binary_fail_open_witness :
    outboundsFalsy sampleConfig = false
      ∧ is_xray_config_valid sampleConfig 1000 sampleTemplate none
          { baseEnv with binaryIsFile := false } = Except.ok true :=
  ⟨rfl, missing_binary_fail_open sampleConfig 1000 sampleTemplate none
    { baseEnv with binaryIsFile := false } rfl (Or.inl rfl) rfl rfl rfl⟩

/-- C4: if the engine template has no inbound of protocol http, every trial
fails before any engine process is launched (the spawn gate is never
reached), and with such a template the working set of every orchestrated run
is empty. -/
theorem no_http_inbound_fails_all (template : Template)
    (h : hasHttpInbound template = false) :
    (∀ (config : ConfigDict) (port : Nat) (test_urls : Option (List String)) (env : XrayEnv),
        (env.avail port = true ∨ env.findFreePortRaises = false) →
        is_xray_config_valid config port template test_urls env = Except.ok false)
      ∧ (∀ (config : ConfigDict) (port : Nat) (env : XrayEnv),
          xray_spawn_attempted config port template env = false)
      ∧ (∀ (O : Orch) (order : List Task), O.template = template →
          build_proxies_from_content O order = []) := by
  refine ⟨?_, ?_, ?_⟩
  · intro config port test_urls env hport
    cases hc : configFalsy config with
    | true => simp [is_xray_config_valid, hc]
    | false =>
      cases ho : outboundsFalsy config with
      | true => simp [is_xray_config_valid, hc, ho]
      | false => simp [is_xray_config_valid, hc, ho, port_cond_false hport, h]
  · intro config port env
    simp [xray_spawn_attempted, h]
  · intro O order hT
    have hempty : collect_results O order = [] := by
      rw [collect_results, List.filterMap_eq_nil_iff]
      intro t ht
      have hne : trialResult O t ≠ Except.ok true := by
        unfold trialResult
        rw [hT]
        exact trial_not_pass_of_no_http h _ _ _ _
      simp [hne]
    rw [build_proxies_from_content, hempty]
    rfl

/-- Witness for C4 at a concrete template, candidate and environment. -/
theorem no_http_inbound_fails_all_witness :
    hasHttpInbound noHttpTemplate = false
      ∧ is_xray_config_valid sampleConfig 1000 noHttpTemplate none baseEnv = Except.ok false :=
  ⟨rfl, (no_http_inbound_fails_all noHttpTemplate rfl).1 sampleConfig 1000 none baseEnv
    (Or.inl rfl)⟩

/-- C6: port availability is consulted exactly once, on the port handed to
the trial (the verdict is invariant under changing availability of any other
port), and a trial whose port is unavailable proceeds exactly as a trial
handed the single freshly allocated port — one retry, no further availability
checks or retries. -/
theorem port_rechecked_once_single_retry (config : ConfigDict) (port : Nat)
    (template : Template) (test_urls : Option (List String)) (env : XrayEnv)
    (g : Nat → Bool) (hg : g port = env.avail port) :
    is_xray_config_valid config port template test_urls { env with avail := g }
        = is_xray_config_valid config port template test_urls env
      ∧ (env.avail port = false → env.findFreePortRaises = false →
          is_xray_config_valid config port template test_urls env
            = is_xray_config_valid config env.altPort template test_urls
                { env with avail := fun _ => true }) := by
  constructor
  · simp [is_xray_config_valid, effective_port, hg]
  · intro h1 h2
    simp [is_xray_config_valid, effective_port, h1, h2]

/-- Witness for C6 at a concrete trial. -/
theorem port_rechecked_once_single_retry_witness :
    ((fun _ => true) : Nat → Bool) 1000 = baseEnv.avail 1000
      ∧ (is_xray_config_valid sampleConfig 1000 sampleTemplate none
            { baseEnv with avail := fun _ => true }
          = is_xray_config_valid sampleConfig 1000 sampleTemplate none baseEnv
        ∧ (baseEnv.avail 1000 = false → baseEnv.findFreePortRaises = false →
            is_xray_config_valid sampleConfig 1000 sampleTemplate none baseEnv
              = is_xray_config_valid sampleConfig baseEnv.altPort sampleTemplate none
                  { baseEnv with avail := fun _ => true })) :=
  ⟨rfl, port_rechecked_once_single_retry sampleConfig 1000 sampleTemplate none baseEnv
    (fun _ => true) rfl⟩

/-- C7: a trial whose engine process has already exited when liveness is
polled after the startup grace period fails, no connectivity probe is
attempted (the verdict is the same for every network behaviour), and the
best-effort stderr capture never changes the verdict or raises (the verdict
is `Except.ok false`, not an error, for both values of the stderr flag). -/
theorem dead_process_fails_without_probe (config : ConfigDict) (port : Nat)
    (template : Template) (test_urls : Option (List String)) (env : XrayEnv) (rc : Int)
    (houts : outboundsFalsy config = false)
    (hport : env.avail port = true ∨ env.findFreePortRaises = false)
    (hhttp : hasHttpInbound template = true)
    (hser : env.serializeOk = true)
    (hbin : env.binaryIsFile = true)
    (hspawn : env.spawn = SpawnOutcome.started)
    (hstdin : env.stdinWriteFails = false)
    (hpoll : env.pollAfterWait = some rc) :
    ∀ (net : Nat → String → FetchOutcome) (sr : Bool),
      is_xray_config_valid config port template test_urls
          { env with network := net, stderrReadRaises := sr } = Except.ok false := by
  intro net sr
  simp [is_xray_config_valid, configFalsy_eq_false houts, houts, port_cond_false hport,
    hhttp, hser, hbin, hspawn, hstdin, hpoll]

/-- Witness for C7 at a concrete trial whose process exited with code 1. -/
theorem dead_process_fails_without_probe_witness :
    ({ baseEnv with pollAfterWait := some 1 } : XrayEnv).pollAfterWait = some 1
      ∧ is_xray_config_valid sampleConfig 1000 sampleTemplate none
          { { baseEnv with pollAfterWait := some 1 } with
            network := fun _ _ => FetchOutcome.ok 204, stderrReadRaises := true }
          = Except.ok false :=
  ⟨rfl, dead_process_fails_without_probe sampleConfig 1000 sampleTemplate none
    { baseEnv with pollAfterWait := some 1 } 1 rfl (Or.inl rfl) rfl rfl rfl rfl rfl rfl
    (fun _ _ => FetchOutcome.ok 204) true⟩

/-- C9: on the empty test URL list `_test_connectivity` raises
`ZeroDivisionError` instead of returning a verdict, and when that point is
reached through `is_xray_config_valid` the catch-all handler swallows the
exception and the trial's verdict is failed. -/
theorem empty_urls_division_by_zero (network : String → FetchOutcome)
    (config : ConfigDict) (port : Nat) (template : Template) (env : XrayEnv)
    (houts : outboundsFalsy config = false)
    (hport : env.avail port = true ∨ env.findFreePortRaises = false)
    (hhttp : hasHttpInbound template = true)
    (hser : env.serializeOk = true)
    (hbin : env.binaryIsFile = true)
    (hspawn : env.spawn = SpawnOutcome.started)
    (hstdin : env.stdinWriteFails = false)
    (hpoll : env.pollAfterWait = none) :
    _test_connectivity [] network = Except.error "ZeroDivisionError"
      ∧ is_xray_config_valid config port template (some []) env = Except.ok false := by
  refine ⟨rfl, ?_⟩
  simp [is_xray_config_valid, configFalsy_eq_false houts, houts, port_cond_false hport,
    hhttp, hser, hbin, hspawn, hstdin, hpoll, _test_connectivity]

/-- Witness for C9 at a concrete trial given an explicit empty URL list. -/
theorem empty_urls_division_by_zero_witness :
    outboundsFalsy sampleConfig = false
      ∧ (_test_connectivity [] (fun _ => FetchOutcome.ok 204)
            = Except.error "ZeroDivisionError"
          ∧ is_xray_config_valid sampleConfig 1000 sampleTemplate (some []) baseEnv
              = Except.ok false) :=
  ⟨rfl, empty_urls_division_by_zero (fun _ => FetchOutcome.ok 204) sampleConfig 1000
    sampleTemplate baseEnv rfl (Or.inl rfl) rfl rfl rfl rfl rfl rfl⟩

/-- C10: a candidate config that is the empty dict, lacks the outbounds key,
or has an empty outbounds list is rejected with a failed verdict before the
in-trial port re-allocation and before any engine process is launched. -/
theorem empty_config_rejected_early (config : ConfigDict) (port : Nat)
    (template : Template) (test_urls : Option (List String)) (env : XrayEnv)
    (h : configFalsy config = true ∨ config.outbounds = none ∨ config.outbounds = some []) :
    is_xray_config_valid config port template test_urls env = Except.ok false
      ∧ xray_port_realloc_attempted config port env = false
      ∧ xray_spawn_attempted config port template env = false := by
  have houts : outboundsFalsy config = true := by
    rcases h with h | h | h
    · exact outboundsFalsy_of_configFalsy h
    · simp [outboundsFalsy, h]
    · simp [outboundsFalsy, h]
  refine ⟨?_, ?_, ?_⟩
  · cases hc : configFalsy config <;> simp [is_xray_config_valid, hc, houts]
  · simp [xray_port_realloc_attempted, houts]
  · simp [xray_spawn_attempted, houts]

/-- Witness for C10 at the empty dict. -/
theorem empty_config_rejected_early_witness :
    configFalsy emptyDictConfig = true
      ∧ (is_xray_config_valid emptyDictConfig 1000 sampleTemplate none baseEnv
            = Except.ok false
          ∧ xray_port_realloc_attempted emptyDictConfig 1000 baseEnv = false
          ∧ xray_spawn_attempted emptyDictConfig 1000 sampleTemplate baseEnv = false) :=
  ⟨rfl, empty_config_rejected_early emptyDictConfig 1000 sampleTemplate none baseEnv
    (Or.inl rfl)⟩

/-- C2: for every completion order of the concurrent trials, the final
working set is exactly the passing candidates in ascending original ingestion
index — it contains only candidates whose trial passed and is strictly sorted
by the candidates' original indices. -/
theorem working_set_passing_and_sorted (O : Orch) (parse : String → Option ConfigDict)
    (lines : List String) (order : List Task)
    (h : order.Perm (tasks_to_process parse lines)) :
    build_proxies_from_content O order
        = ((tasks_to_process parse lines).filter
              (fun t => decide (trialResult O t = Except.ok true))).map mkProxy
      ∧ List.Pairwise proxyLt (build_proxies_from_content O order) := by
  have he := build_eq_filter O parse lines order h
  refine ⟨he, ?_⟩
  rw [he]
  exact target_sorted O parse lines

/-- Witness for C2 with a completion order that is the reverse of the
submission order. -/
theorem working_set_passing_and_sorted_witness :
    ((tasks_to_process parseSample sampleLines).reverse).Perm
        (tasks_to_process parseSample sampleLines)
      ∧ (build_proxies_from_content sampleOrch
            ((tasks_to_process parseSample sampleLines).reverse)
          = ((tasks_to_process parseSample sampleLines).filter
                (fun t => decide (trialResult sampleOrch t = Except.ok true))).map mkProxy
        ∧ List.Pairwise proxyLt
            (build_proxies_from_content sampleOrch
              ((tasks_to_process parseSample sampleLines).reverse))) :=
  ⟨List.reverse_perm (tasks_to_process parseSample sampleLines),
    working_set_passing_and_sorted sampleOrch parseSample sampleLines
      ((tasks_to_process parseSample sampleLines).reverse)
      (List.reverse_perm (tasks_to_process parseSample sampleLines))⟩

/-- C5 counterexample: three parsed candidates of which the second fails its
trial; two candidates survive (k = 2), but the emitted tags are
proxy1 and proxy3 — the original ingestion indices — not the dense sequence
proxy1, proxy2 the claim requires. -/
theorem tags_not_dense_counterexample :
    (build_proxies_from_content sampleOrch (tasks_to_process parseSample sampleLines)).map
        Proxy.tag = ["proxy1", "proxy3"]
      ∧ (build_proxies_from_content sampleOrch
            (tasks_to_process parseSample sampleLines)).length = 2
      ∧ (build_proxies_from_content sampleOrch (tasks_to_process parseSample sampleLines)).map
          Proxy.tag ≠ ["proxy1", "proxy2"] := by
  refine ⟨rfl, rfl, by decide⟩

/-- C5 amended: the aggregation tags each surviving candidate with
`"proxy{n}"` where n is the candidate's original 1-based ingestion index (not
a dense renumbering of the surviving subset), preserving relative order: the
tag list equals the passing candidates' indices in ascending order, and the
numeric tag parts are strictly increasing, though gaps appear where
candidates failed. -/
theorem tags_use_original_index (O : Orch) (parse : String → Option ConfigDict)
    (lines : List String) (order : List Task)
    (h : order.Perm (tasks_to_process parse lines)) :
    (build_proxies_from_content O order).map Proxy.tag
        = ((tasks_to_process parse lines).filter
              (fun t => decide (trialResult O t = Except.ok true))).map
            (fun t => "proxy" ++ toString t.index)
      ∧ List.Pairwise proxyLt (build_proxies_from_content O order) := by
  have he := build_eq_filter O parse lines order h
  constructor
  · rw [he, List.map_map]
    rfl
  · rw [he]
    exact target_sorted O parse lines

/-- Witness for the amended C5 theorem with a reversed completion order. -/
theorem tags_use_original_index_witness :
    ((tasks_to_process parseSample sampleLines).reverse).Perm
        (tasks_to_process parseSample sampleLines)
      ∧ ((build_proxies_from_content sampleOrch
              ((tasks_to_process parseSample sampleLines).reverse)).map Proxy.tag
          = ((tasks_to_process parseSample sampleLines).filter
                (fun t => decide (trialResult sampleOrch t = Except.ok true))).map
              (fun t => "proxy" ++ toString t.index)
        ∧ List.Pairwise proxyLt
            (build_proxies_from_content sampleOrch
              ((tasks_to_process parseSample sampleLines).reverse))) :=
  ⟨List.reverse_perm (tasks_to_process parseSample sampleLines),
    tags_use_original_index sampleOrch parseSample sampleLines
      ((tasks_to_process parseSample sampleLines).reverse)
      (List.reverse_perm (tasks_to_process parseSample sampleLines))⟩

/-- C8: an exception escaping one trial (here find_free_port raising OSError
outside the try block) is absorbed at the worker boundary: the failed task is
simply excluded from the working set, every sibling whose trial passed is
still included, and the run still returns the working set built from all the
other trials' verdicts. -/
theorem trial_exception_isolated (O : Orch) (parse : String → Option ConfigDict)
    (lines : List String) (order : List Task) (t : Task) (msg : String)
    (h : order.Perm (tasks_to_process parse lines))
    (ht : t ∈ tasks_to_process parse lines)
    (herr : trialResult O t = Except.error msg) :
    build_proxies_from_content O order
        = ((tasks_to_process parse lines).filter
              (fun u => decide (trialResult O u = Except.ok true))).map mkProxy
      ∧ mkProxy t ∉ build_proxies_from_content O order
      ∧ ∀ u ∈ tasks_to_process parse lines,
          trialResult O u = Except.ok true →
            mkProxy u ∈ build_proxies_from_content O order := by
  have he := build_eq_filter O parse lines order h
  refine ⟨he, ?_, ?_⟩
  · rw [he]
    intro hmem
    rw [List.mem_map] at hmem
    obtain ⟨u, hu, hequ⟩ := hmem
    rw [List.mem_filter] at hu
    obtain ⟨humem, hupass⟩ := hu
    have hidx : u.index = t.index := congrArg Proxy.tagNum hequ
    have hut : u = t :=
      List.inj_on_of_nodup_map (tasks_index_nodup parse lines) humem ht hidx
    rw [hut, herr] at hupass
    simp at hupass
  · intro u hu hupass
    rw [he, List.mem_map]
    exact ⟨u, List.mem_filter.mpr ⟨hu, by simp [hupass]⟩, rfl⟩

/-- Witness for C8: the trial of the second candidate raises OSError while
the first and third pass; the working set keeps exactly the siblings. -/
theorem trial_exception_isolated_witness :
    trialResult errOrch betaTask = Except.error "OSError"
      ∧ (build_proxies_from_content errOrch
            ((tasks_to_process parseSample sampleLines).reverse)
          = ((tasks_to_process parseSample sampleLines).filter
                (fun u => decide (trialResult errOrch u = Except.ok true))).map mkProxy
        ∧ mkProxy betaTask
            ∉ build_proxies_from_content errOrch
                ((tasks_to_process parseSample sampleLines).reverse)
        ∧ ∀ u ∈ tasks_to_process parseSample sampleLines,
            trialResult errOrch u = Except.ok true →
              mkProxy u ∈ build_proxies_from_content errOrch
                  ((tasks_to_process parseSample sampleLines).reverse)) :=
  ⟨rfl,
    trial_exception_isolated errOrch parseSample sampleLines
      ((tasks_to_process parseSample sampleLines).reverse) betaTask "OSError"
      (List.reverse_perm (tasks_to_process parseSample sampleLines))
      (by decide) rfl⟩

end CreateConfigsJson
